import Mathlib

/-!
Verification of the env-combo sensor driver core (src/env-combo.c).

The driver talks to a two-channel environmental sensor over a
register-addressed bus.  We shallowly embed the two core functions,
`env_combo_read_raw` and `env_combo_probe`, as pure Lean functions over a
`Transport` model of the smbus byte calls.  Following the C driver, a
register read yields an `Int`: a nonnegative byte value on success, a
negative errno on failure; a register write yields `0` on success and a
negative errno on failure.  Each embedded operation additionally returns
the ordered list of guard and bus events it performed, so that ordering
and "no transaction was issued" properties can be stated exactly.

The framework collaborators (device allocation and device registration),
which the spec places out of scope and which touch no sensor register,
are modelled as succeeding.
-/

-- Sensor register map, from src/env-combo.c
def REG_WHO_AM_I : Nat := 0x00
def REG_TEMP_MSB : Nat := 0x01
def REG_TEMP_LSB : Nat := 0x02
def REG_HUM_OUT : Nat := 0x03
def REG_CFG : Nat := 0x06
def REG_STATUS : Nat := 0x0C
def REG_CALIB_TEMP_MSB : Nat := 0x0D
def REG_CALIB_TEMP_LSB : Nat := 0x0E
def REG_CALIB_HUM : Nat := 0x0F

def CFG_TEMP_EN : Nat := 0x40
def CFG_DEFAULT : Nat := CFG_TEMP_EN
def WHO_AM_I_EXPECTED : Int := 0xEB

def STATUS_TEMP_RDY_MASK : Nat := 0x02
def STATUS_HUM_RDY_MASK : Nat := 0x04

def TEMP_SHIFT_BITS : Nat := 8
def BYTE_MASK : Nat := 0xFF

-- Linux errno values used by the driver (the driver returns their negations)
def EINVAL_code : Int := 22
def EAGAIN_code : Int := 11
def ENODEV_code : Int := 19
def EIO_code : Int := 5

-- IIO constants: the raw-value info mask and the integer-result tag
def IIO_CHAN_INFO_RAW : Nat := 0
def IIO_VAL_INT : Int := 1

/-- Channel discriminant: `chan->type` in the C.  Besides the two defined
channels, `other n` stands for any other discriminant value. -/
inductive IioChanType where
  | temp
  | humidityrelative
  | other (n : Nat)
deriving DecidableEq, Repr

/-- One guard or bus event, in the order the driver performs them.  A
`readReg` event records the address and the value the transport returned;
a `writeReg` event records address, value written and the returned code. -/
inductive Event where
  | lock
  | unlock
  | readReg (addr : Nat) (result : Int)
  | writeReg (addr : Nat) (value : Nat) (result : Int)
deriving DecidableEq, Repr

/-- The register transport (smbus): `readReg` returns a nonnegative byte
value or a negative errno; `writeReg` returns `0` or a negative errno. -/
structure Transport where
  readReg : Nat → Int
  writeReg : Nat → Nat → Int

/-- Driver private data (`struct env_combo_data`): the two calibration
values loaded at probe time.  The client handle and the mutex are
represented by the `Transport` argument and the lock events. -/
structure EnvComboData where
  temp_calib : Int
  hum_calib : Int
deriving DecidableEq, Repr

/-- Result of one `env_combo_read_raw` call: the returned code, the value
stored through `*val` (`none` when the call never stores), the driver data
after the call, and the event trace. -/
structure ReadRawResult where
  ret : Int
  val : Option Int
  data : EnvComboData
  trace : List Event
deriving DecidableEq, Repr

/-- Shallow embedding of `env_combo_read_raw` (src/env-combo.c:107-174).
The mask is checked before the mutex is taken; the status register is read
under the lock; the channel switch then either reports not-ready, reads
the data registers and applies calibration, or rejects an unknown
channel. -/
def env_combo_read_raw (t : Transport) (data : EnvComboData)
    (chanType : IioChanType) (mask : Nat) : ReadRawResult :=
  if mask ≠ IIO_CHAN_INFO_RAW then
    ⟨-EINVAL_code, none, data, []⟩
  else
    let status := t.readReg REG_STATUS
    if status < 0 then
      ⟨-EIO_code, none, data,
        [Event.lock, Event.readReg REG_STATUS status, Event.unlock]⟩
    else
      match chanType with
      | IioChanType.temp =>
        if status.toNat &&& STATUS_TEMP_RDY_MASK = 0 then
          ⟨-EAGAIN_code, none, data,
            [Event.lock, Event.readReg REG_STATUS status, Event.unlock]⟩
        else
          let temp_msb := t.readReg REG_TEMP_MSB
          if temp_msb < 0 then
            ⟨-EIO_code, none, data,
              [Event.lock, Event.readReg REG_STATUS status,
               Event.readReg REG_TEMP_MSB temp_msb, Event.unlock]⟩
          else
            let temp_lsb := t.readReg REG_TEMP_LSB
            if temp_lsb < 0 then
              ⟨-EIO_code, none, data,
                [Event.lock, Event.readReg REG_STATUS status,
                 Event.readReg REG_TEMP_MSB temp_msb,
                 Event.readReg REG_TEMP_LSB temp_lsb, Event.unlock]⟩
            else
              let raw_data : Int :=
                (((temp_msb.toNat <<< TEMP_SHIFT_BITS) |||
                   (temp_lsb.toNat &&& BYTE_MASK) : Nat) : Int)
                  + data.temp_calib
              ⟨IIO_VAL_INT, some raw_data, data,
                [Event.lock, Event.readReg REG_STATUS status,
                 Event.readReg REG_TEMP_MSB temp_msb,
                 Event.readReg REG_TEMP_LSB temp_lsb, Event.unlock]⟩
      | IioChanType.humidityrelative =>
        if status.toNat &&& STATUS_HUM_RDY_MASK = 0 then
          ⟨-EAGAIN_code, none, data,
            [Event.lock, Event.readReg REG_STATUS status, Event.unlock]⟩
        else
          let hum_lsb := t.readReg REG_HUM_OUT
          if hum_lsb < 0 then
            ⟨-EIO_code, none, data,
              [Event.lock, Event.readReg REG_STATUS status,
               Event.readReg REG_HUM_OUT hum_lsb, Event.unlock]⟩
          else
            let raw_data : Int := hum_lsb + data.hum_calib
            ⟨IIO_VAL_INT, some raw_data, data,
              [Event.lock, Event.readReg REG_STATUS status,
               Event.readReg REG_HUM_OUT hum_lsb, Event.unlock]⟩
      | IioChanType.other _ =>
        ⟨-EINVAL_code, none, data,
          [Event.lock, Event.readReg REG_STATUS status, Event.unlock]⟩

/-- Result of one `env_combo_probe` call: the returned code, the driver
data when a session is produced (`none` on failure), and the event
trace. -/
structure ProbeResult where
  ret : Int
  data : Option EnvComboData
  trace : List Event
deriving DecidableEq, Repr

/-- Shallow embedding of `env_combo_probe` (src/env-combo.c:184-245).
Identity check first; then the two temperature calibration bytes, high
byte first, combined as `(msb << 8) | lsb` with no sign extension; then
the humidity calibration byte, stored as returned; then the configuration
write of `CFG_DEFAULT`, whose failure propagates the transport's own
return code (`dev_err_probe(client, ret, ...)` returns `ret`).  The
out-of-scope framework allocation and registration steps are modelled as
succeeding. -/
def env_combo_probe (t : Transport) : ProbeResult :=
  let id_reg := t.readReg REG_WHO_AM_I
  if id_reg < 0 ∨ id_reg ≠ WHO_AM_I_EXPECTED then
    ⟨-ENODEV_code, none, [Event.readReg REG_WHO_AM_I id_reg]⟩
  else
    let calib_msb := t.readReg REG_CALIB_TEMP_MSB
    if calib_msb < 0 then
      ⟨-EIO_code, none,
        [Event.readReg REG_WHO_AM_I id_reg,
         Event.readReg REG_CALIB_TEMP_MSB calib_msb]⟩
    else
      let calib_lsb := t.readReg REG_CALIB_TEMP_LSB
      if calib_lsb < 0 then
        ⟨-EIO_code, none,
          [Event.readReg REG_WHO_AM_I id_reg,
           Event.readReg REG_CALIB_TEMP_MSB calib_msb,
           Event.readReg REG_CALIB_TEMP_LSB calib_lsb]⟩
      else
        let temp_calib : Int :=
          (((calib_msb.toNat <<< TEMP_SHIFT_BITS) ||| calib_lsb.toNat : Nat) : Int)
        let calib_hum := t.readReg REG_CALIB_HUM
        if calib_hum < 0 then
          ⟨-EIO_code, none,
            [Event.readReg REG_WHO_AM_I id_reg,
             Event.readReg REG_CALIB_TEMP_MSB calib_msb,
             Event.readReg REG_CALIB_TEMP_LSB calib_lsb,
             Event.readReg REG_CALIB_HUM calib_hum]⟩
        else
          let hum_calib : Int := calib_hum
          let wret := t.writeReg REG_CFG CFG_DEFAULT
          if wret < 0 then
            ⟨wret, none,
              [Event.readReg REG_WHO_AM_I id_reg,
               Event.readReg REG_CALIB_TEMP_MSB calib_msb,
               Event.readReg REG_CALIB_TEMP_LSB calib_lsb,
               Event.readReg REG_CALIB_HUM calib_hum,
               Event.writeReg REG_CFG CFG_DEFAULT wret]⟩
          else
            ⟨0, some ⟨temp_calib, hum_calib⟩,
              [Event.readReg REG_WHO_AM_I id_reg,
               Event.readReg REG_CALIB_TEMP_MSB calib_msb,
               Event.readReg REG_CALIB_TEMP_LSB calib_lsb,
               Event.readReg REG_CALIB_HUM calib_hum,
               Event.writeReg REG_CFG CFG_DEFAULT wret]⟩

/-- Is this event a read of one of the three data registers
(TEMP_MSB, TEMP_LSB, HUM_OUT)? -/
def Event.isDataRegRead : Event → Bool
  | Event.readReg addr _ =>
      addr = REG_TEMP_MSB ∨ addr = REG_TEMP_LSB ∨ addr = REG_HUM_OUT
  | _ => false

-- Shared helper: `env_combo_read_raw` returns the driver data it was given.
theorem read_raw_data_eq (t : Transport) (data : EnvComboData)
    (chanType : IioChanType) (mask : Nat) :
    (env_combo_read_raw t data chanType mask).data = data := by
  unfold env_combo_read_raw
  cases chanType <;> dsimp only <;> (repeat' split) <;> rfl

/-- A transport holding the spec's test vectors: identity `0xEB`, both
readiness bits set, TEMP_MSB=0, TEMP_LSB=100, HUM_OUT=50, temperature
calibration bytes `0x01`/`0x02`, humidity calibration `5`; writes
succeed. -/
def sensorOkT : Transport where
  readReg := fun addr =>
    if addr = REG_STATUS then 0x06
    else if addr = REG_TEMP_MSB then 0x00
    else if addr = REG_TEMP_LSB then 0x64
    else if addr = REG_HUM_OUT then 0x32
    else if addr = REG_WHO_AM_I then 0xEB
    else if addr = REG_CALIB_TEMP_MSB then 0x01
    else if addr = REG_CALIB_TEMP_LSB then 0x02
    else if addr = REG_CALIB_HUM then 0x05
    else 0
  writeReg := fun _ _ => 0

/-- A transport whose status register reads back as `0` (neither channel
ready); all other registers as in `sensorOkT`. -/
def statusZeroT : Transport where
  readReg := fun addr => if addr = REG_STATUS then 0 else sensorOkT.readReg addr
  writeReg := fun _ _ => 0

/-- C1: for every session and every successful read (status read
succeeds, readiness bit set, data reads succeed), reading the temperature
channel returns `((temp_msb <<< 8) ||| (temp_lsb &&& 0xFF))` plus the
session's temperature calibration, with the MSB register read before the
LSB register (visible in the event trace), and reading the humidity
channel returns the humidity output register value plus the session's
humidity calibration. -/
theorem readChannel_success_value (t : Transport) (data : EnvComboData)
    (hs : 0 ≤ t.readReg REG_STATUS)
    (htbit : (t.readReg REG_STATUS).toNat &&& STATUS_TEMP_RDY_MASK ≠ 0)
    (hhbit : (t.readReg REG_STATUS).toNat &&& STATUS_HUM_RDY_MASK ≠ 0)
    (hm : 0 ≤ t.readReg REG_TEMP_MSB)
    (hl : 0 ≤ t.readReg REG_TEMP_LSB)
    (hh : 0 ≤ t.readReg REG_HUM_OUT) :
    (env_combo_read_raw t data IioChanType.temp IIO_CHAN_INFO_RAW).ret
      = IIO_VAL_INT ∧
    (env_combo_read_raw t data IioChanType.temp IIO_CHAN_INFO_RAW).val
      = some (((((t.readReg REG_TEMP_MSB).toNat <<< TEMP_SHIFT_BITS) |||
          ((t.readReg REG_TEMP_LSB).toNat &&& BYTE_MASK) : Nat) : Int)
          + data.temp_calib) ∧
    (env_combo_read_raw t data IioChanType.temp IIO_CHAN_INFO_RAW).trace
      = [Event.lock, Event.readReg REG_STATUS (t.readReg REG_STATUS),
         Event.readReg REG_TEMP_MSB (t.readReg REG_TEMP_MSB),
         Event.readReg REG_TEMP_LSB (t.readReg REG_TEMP_LSB),
         Event.unlock] ∧
    (env_combo_read_raw t data IioChanType.humidityrelative
        IIO_CHAN_INFO_RAW).ret = IIO_VAL_INT ∧
    (env_combo_read_raw t data IioChanType.humidityrelative
        IIO_CHAN_INFO_RAW).val
      = some (t.readReg REG_HUM_OUT + data.hum_calib) := by
  simp only [env_combo_read_raw,
    if_neg (show ¬(IIO_CHAN_INFO_RAW ≠ IIO_CHAN_INFO_RAW) by simp),
    if_neg (not_lt.mpr hs), if_neg htbit, if_neg (not_lt.mpr hm),
    if_neg (not_lt.mpr hl), if_neg hhbit, if_neg (not_lt.mpr hh)]
  refine ⟨by simp, by simp, by simp, by simp, by simp⟩

/-- C1 witness: on `sensorOkT` with calibration `⟨258, 5⟩`, the
temperature read returns 358 and the humidity read returns 55, the spec's
worked examples. -/
theorem readChannel_success_value_witness :
    (env_combo_read_raw sensorOkT ⟨258, 5⟩ IioChanType.temp
        IIO_CHAN_INFO_RAW).val = some 358 ∧
    (env_combo_read_raw sensorOkT ⟨258, 5⟩ IioChanType.humidityrelative
        IIO_CHAN_INFO_RAW).val = some 55 := by
  have h := readChannel_success_value sensorOkT ⟨258, 5⟩ (by decide)
    (by decide) (by decide) (by decide) (by decide) (by decide)
  refine ⟨?_, ?_⟩
  · rw [h.2.1]; decide
  · rw [h.2.2.2.2]; decide

/-- C3: when the status register read succeeds but the requested
channel's readiness bit (`0x02` for temperature, `0x04` for humidity) is
clear, the call returns `-EAGAIN` (NotReady) and the event trace contains
no read of TEMP_MSB, TEMP_LSB or HUM_OUT. -/
theorem readChannel_notReady_no_data_read (t : Transport)
    (data : EnvComboData) (hs : 0 ≤ t.readReg REG_STATUS) :
    ((t.readReg REG_STATUS).toNat &&& STATUS_TEMP_RDY_MASK = 0 →
      (env_combo_read_raw t data IioChanType.temp IIO_CHAN_INFO_RAW).ret
        = -EAGAIN_code ∧
      ((env_combo_read_raw t data IioChanType.temp
          IIO_CHAN_INFO_RAW).trace.filter Event.isDataRegRead).length = 0) ∧
    ((t.readReg REG_STATUS).toNat &&& STATUS_HUM_RDY_MASK = 0 →
      (env_combo_read_raw t data IioChanType.humidityrelative
          IIO_CHAN_INFO_RAW).ret = -EAGAIN_code ∧
      ((env_combo_read_raw t data IioChanType.humidityrelative
          IIO_CHAN_INFO_RAW).trace.filter Event.isDataRegRead).length = 0) := by
  constructor
  · intro htbit
    simp only [env_combo_read_raw,
      if_neg (show ¬(IIO_CHAN_INFO_RAW ≠ IIO_CHAN_INFO_RAW) by simp),
      if_neg (not_lt.mpr hs), if_pos htbit]
    refine ⟨by simp, ?_⟩
    simp [Event.isDataRegRead, REG_STATUS, REG_TEMP_MSB, REG_TEMP_LSB,
      REG_HUM_OUT]
  · intro hhbit
    simp only [env_combo_read_raw,
      if_neg (show ¬(IIO_CHAN_INFO_RAW ≠ IIO_CHAN_INFO_RAW) by simp),
      if_neg (not_lt.mpr hs), if_pos hhbit]
    refine ⟨by simp, ?_⟩
    simp [Event.isDataRegRead, REG_STATUS, REG_TEMP_MSB, REG_TEMP_LSB,
      REG_HUM_OUT]

/-- C3 witness: on `statusZeroT` (status reads back `0`), both channel
reads return `-EAGAIN` with zero data-register reads. -/
theorem readChannel_notReady_no_data_read_witness :
    (env_combo_read_raw statusZeroT ⟨258, 5⟩ IioChanType.temp
        IIO_CHAN_INFO_RAW).ret = -EAGAIN_code ∧
    (env_combo_read_raw statusZeroT ⟨258, 5⟩ IioChanType.humidityrelative
        IIO_CHAN_INFO_RAW).ret = -EAGAIN_code := by
  have h := readChannel_notReady_no_data_read statusZeroT ⟨258, 5⟩
    (by decide)
  exact ⟨(h.1 (by decide)).1, (h.2 (by decide)).1⟩

/-- C4 counterexample: on `sensorOkT` with an out-of-range channel
discriminant, `env_combo_read_raw` does return `-EINVAL`, but it is not
true that zero transport calls are issued: the status register (address
`0x0C`) is read before the channel switch rejects the discriminant. -/
theorem readChannel_invalid_channel_counterexample :
    (env_combo_read_raw sensorOkT ⟨258, 5⟩ (IioChanType.other 42)
        IIO_CHAN_INFO_RAW).ret = -EINVAL_code ∧
    (env_combo_read_raw sensorOkT ⟨258, 5⟩ (IioChanType.other 42)
        IIO_CHAN_INFO_RAW).trace
      = [Event.lock, Event.readReg REG_STATUS 6, Event.unlock] := by
  decide

/-- C4 amended: for every channel discriminant outside the two defined
channels, when the status register read succeeds `env_combo_read_raw`
returns `-EINVAL` having issued exactly one transport transaction — the
status register read — and in particular no data-register read or write
of any other kind. -/
theorem readChannel_invalid_channel (t : Transport) (data : EnvComboData)
    (n : Nat) (hs : 0 ≤ t.readReg REG_STATUS) :
    (env_combo_read_raw t data (IioChanType.other n)
        IIO_CHAN_INFO_RAW).ret = -EINVAL_code ∧
    (env_combo_read_raw t data (IioChanType.other n)
        IIO_CHAN_INFO_RAW).trace
      = [Event.lock, Event.readReg REG_STATUS (t.readReg REG_STATUS),
         Event.unlock] := by
  simp only [env_combo_read_raw,
    if_neg (show ¬(IIO_CHAN_INFO_RAW ≠ IIO_CHAN_INFO_RAW) by simp),
    if_neg (not_lt.mpr hs)]
  exact ⟨by simp, by simp⟩

/-- C4 amended witness: the discriminant `42` on `sensorOkT`. -/
theorem readChannel_invalid_channel_witness :
    (env_combo_read_raw sensorOkT ⟨258, 5⟩ (IioChanType.other 42)
        IIO_CHAN_INFO_RAW).ret = -EINVAL_code := by
  exact (readChannel_invalid_channel sensorOkT ⟨258, 5⟩ 42 (by decide)).1

/-- C7: on every outcome, `env_combo_read_raw` leaves the session's two
calibration offsets exactly as they were: the driver data coming out of
the call equals the driver data going in, for every transport, channel
discriminant and mask. -/
theorem readChannel_preserves_calibration (t : Transport)
    (data : EnvComboData) (chanType : IioChanType) (mask : Nat) :
    (env_combo_read_raw t data chanType mask).data.temp_calib
      = data.temp_calib ∧
    (env_combo_read_raw t data chanType mask).data.hum_calib
      = data.hum_calib := by
  rw [read_raw_data_eq]
  exact ⟨rfl, rfl⟩

/-- C8: `env_combo_read_raw` is idempotent in the session state: a second
call on the driver data left by a first call, against the unchanged
device, is identical to the first call — in particular it returns the
same value and code both times. -/
theorem readChannel_idempotent (t : Transport) (data : EnvComboData)
    (chanType : IioChanType) (mask : Nat) :
    env_combo_read_raw t
        (env_combo_read_raw t data chanType mask).data chanType mask
      = env_combo_read_raw t data chanType mask := by
  rw [read_raw_data_eq]

/-- C9: any info mask other than the raw-value request makes
`env_combo_read_raw` return `-EINVAL` with an empty event trace: the
guard is never acquired and no transport transaction (no status read) is
issued. -/
theorem readChannel_bad_mask_no_transactions (t : Transport)
    (data : EnvComboData) (chanType : IioChanType) (mask : Nat)
    (h : mask ≠ IIO_CHAN_INFO_RAW) :
    (env_combo_read_raw t data chanType mask).ret = -EINVAL_code ∧
    (env_combo_read_raw t data chanType mask).trace = [] := by
  unfold env_combo_read_raw
  rw [if_pos h]
  exact ⟨rfl, rfl⟩

/-- C9 witness: mask `1` on `sensorOkT`. -/
theorem readChannel_bad_mask_no_transactions_witness :
    (env_combo_read_raw sensorOkT ⟨258, 5⟩ IioChanType.temp 1).ret
      = -EINVAL_code ∧
    (env_combo_read_raw sensorOkT ⟨258, 5⟩ IioChanType.temp 1).trace
      = [] :=
  readChannel_bad_mask_no_transactions sensorOkT ⟨258, 5⟩
    IioChanType.temp 1 (by decide)

/-- C10: the caller's output location is stored exactly on the success
path: `env_combo_read_raw` yields a stored value if and only if it
returns `IIO_VAL_INT`, so every failure outcome leaves the output
unwritten. -/
theorem readChannel_val_written_iff_success (t : Transport)
    (data : EnvComboData) (chanType : IioChanType) (mask : Nat) :
    (env_combo_read_raw t data chanType mask).val.isSome
      ↔ (env_combo_read_raw t data chanType mask).ret = IIO_VAL_INT := by
  unfold env_combo_read_raw
  cases chanType <;> dsimp only <;> (repeat' split) <;>
    simp [EINVAL_code, EIO_code, EAGAIN_code, IIO_VAL_INT]

/-- A transport that reads identity as `0x55` instead of `0xEB`. -/
def badIdT : Transport where
  readReg := fun addr =>
    if addr = REG_WHO_AM_I then 0x55 else sensorOkT.readReg addr
  writeReg := fun _ _ => 0

/-- A transport whose three calibration registers all read `0xFF`. -/
def allFFT : Transport where
  readReg := fun addr =>
    if addr = REG_CALIB_TEMP_MSB then 0xFF
    else if addr = REG_CALIB_TEMP_LSB then 0xFF
    else if addr = REG_CALIB_HUM then 0xFF
    else sensorOkT.readReg addr
  writeReg := fun _ _ => 0

/-- A transport whose temperature-calibration MSB read fails with
`-EIO`. -/
def calibFailT : Transport where
  readReg := fun addr =>
    if addr = REG_CALIB_TEMP_MSB then -EIO_code
    else sensorOkT.readReg addr
  writeReg := fun _ _ => 0

/-- A transport whose configuration write fails with `-EIO`. -/
def cfgFailT : Transport where
  readReg := sensorOkT.readReg
  writeReg := fun _ _ => -EIO_code

/-- C2 counterexample: with all three calibration registers reading
`0xFF`, the probe stores a temperature calibration of `65535` and a
humidity calibration of `255` — not `-1` and `-1` as a signed (two's
complement) interpretation would give: the code performs no sign
extension. -/
theorem calibration_sign_counterexample :
    (env_combo_probe allFFT).data = some ⟨65535, 255⟩ ∧
    (env_combo_probe allFFT).data ≠ some ⟨-1, -1⟩ := by
  decide

/-- C2 amended: the calibration values loaded at probe time are stored
without sign interpretation: the temperature calibration is the plain
nonnegative `(msb <<< 8) ||| lsb` combination of the two calibration
bytes, and the humidity calibration is the raw (nonnegative) register
value. -/
theorem calibration_unsigned (t : Transport)
    (hid : t.readReg REG_WHO_AM_I = WHO_AM_I_EXPECTED)
    (hm : 0 ≤ t.readReg REG_CALIB_TEMP_MSB)
    (hl : 0 ≤ t.readReg REG_CALIB_TEMP_LSB)
    (hh : 0 ≤ t.readReg REG_CALIB_HUM)
    (hw : 0 ≤ t.writeReg REG_CFG CFG_DEFAULT) :
    (env_combo_probe t).data
      = some ⟨(((((t.readReg REG_CALIB_TEMP_MSB).toNat <<< TEMP_SHIFT_BITS)
            ||| (t.readReg REG_CALIB_TEMP_LSB).toNat : Nat) : Int)),
          t.readReg REG_CALIB_HUM⟩ ∧
    (0 : Int) ≤ ((((t.readReg REG_CALIB_TEMP_MSB).toNat <<< TEMP_SHIFT_BITS)
        ||| (t.readReg REG_CALIB_TEMP_LSB).toNat : Nat) : Int) ∧
    0 ≤ t.readReg REG_CALIB_HUM := by
  have hnotbad : ¬(t.readReg REG_WHO_AM_I < 0 ∨
      t.readReg REG_WHO_AM_I ≠ WHO_AM_I_EXPECTED) := by
    simp [hid, WHO_AM_I_EXPECTED]
  simp only [env_combo_probe, if_neg hnotbad, if_neg (not_lt.mpr hm),
    if_neg (not_lt.mpr hl), if_neg (not_lt.mpr hh), if_neg (not_lt.mpr hw)]
  exact ⟨by simp, Int.ofNat_nonneg _, hh⟩

/-- C2 amended witness: on `allFFT` the stored calibration pair is
`⟨65535, 255⟩`, both nonnegative. -/
theorem calibration_unsigned_witness :
    (env_combo_probe allFFT).data = some ⟨65535, 255⟩ := by
  have h := calibration_unsigned allFFT (by decide) (by decide)
    (by decide) (by decide) (by decide)
  rw [h.1]
  decide

/-- C5: the identity gate.  If the identity register read fails or
returns anything other than `0xEB`, the probe returns `-ENODEV`
(DeviceNotFound), produces no session, and its whole trace is the single
identity read — no calibration read and no configuration write.  If the
identity register reads `0xEB` and the calibration reads and the
configuration write succeed, the probe returns `0` and produces a
session. -/
theorem probe_identity_gate (t : Transport) :
    ((t.readReg REG_WHO_AM_I < 0 ∨
        t.readReg REG_WHO_AM_I ≠ WHO_AM_I_EXPECTED) →
      (env_combo_probe t).ret = -ENODEV_code ∧
      (env_combo_probe t).data = none ∧
      (env_combo_probe t).trace
        = [Event.readReg REG_WHO_AM_I (t.readReg REG_WHO_AM_I)]) ∧
    (t.readReg REG_WHO_AM_I = WHO_AM_I_EXPECTED →
     0 ≤ t.readReg REG_CALIB_TEMP_MSB →
     0 ≤ t.readReg REG_CALIB_TEMP_LSB →
     0 ≤ t.readReg REG_CALIB_HUM →
     0 ≤ t.writeReg REG_CFG CFG_DEFAULT →
      (env_combo_probe t).ret = 0 ∧
      (env_combo_probe t).data.isSome = true) := by
  constructor
  · intro hbad
    simp only [env_combo_probe, if_pos hbad]
    exact ⟨by simp, by simp, by simp⟩
  · intro hid hm hl hh hw
    have hnotbad : ¬(t.readReg REG_WHO_AM_I < 0 ∨
        t.readReg REG_WHO_AM_I ≠ WHO_AM_I_EXPECTED) := by
      simp [hid, WHO_AM_I_EXPECTED]
    simp only [env_combo_probe, if_neg hnotbad, if_neg (not_lt.mpr hm),
      if_neg (not_lt.mpr hl), if_neg (not_lt.mpr hh),
      if_neg (not_lt.mpr hw)]
    exact ⟨by simp, by simp⟩

/-- C5 witness: with identity `0x55` the probe fails with `-ENODEV`
after the single identity read; on `sensorOkT` it succeeds with a
session. -/
theorem probe_identity_gate_witness :
    (env_combo_probe badIdT).ret = -ENODEV_code ∧
    (env_combo_probe badIdT).trace
      = [Event.readReg REG_WHO_AM_I 0x55] ∧
    (env_combo_probe sensorOkT).ret = 0 ∧
    (env_combo_probe sensorOkT).data.isSome = true := by
  have h1 := (probe_identity_gate badIdT).1 (by decide)
  have h2 := (probe_identity_gate sensorOkT).2 (by decide) (by decide)
    (by decide) (by decide) (by decide)
  exact ⟨h1.1, h1.2.2, h2.1, h2.2⟩

/-- C6 counterexample: the configuration-write failure is not reported
through a code distinct from IoError.  On `cfgFailT` (identity and
calibration fine, configuration write fails with `-EIO`) the probe
returns `-EIO` — exactly the same code that a calibration-read failure
(`calibFailT`) produces — so the claimed distinct ConfigurationFailed
error kind does not exist in the code. -/
theorem probe_config_error_counterexample :
    (env_combo_probe cfgFailT).ret = -EIO_code ∧
    (env_combo_probe calibFailT).ret = -EIO_code ∧
    (env_combo_probe cfgFailT).ret = (env_combo_probe calibFailT).ret := by
  decide

/-- C6 amended: the probe performs its steps strictly in order —
identity check, temperature-calibration MSB then LSB reads, humidity
calibration read, then the configuration write of `0x40` to the
configuration register — each step's failure aborts the whole operation
with no session produced, the identity failure yielding `-ENODEV`, a
calibration-read failure yielding `-EIO`, and a configuration-write
failure yielding the transport's own error code (which need not differ
from `-EIO`).  Stated as a complete case analysis whose traces exhibit
the strict step order. -/
theorem probe_step_order_and_errors (t : Transport) :
    ((t.readReg REG_WHO_AM_I < 0 ∨
        t.readReg REG_WHO_AM_I ≠ WHO_AM_I_EXPECTED) →
      env_combo_probe t
        = ⟨-ENODEV_code, none,
           [Event.readReg REG_WHO_AM_I (t.readReg REG_WHO_AM_I)]⟩) ∧
    (t.readReg REG_WHO_AM_I = WHO_AM_I_EXPECTED →
     t.readReg REG_CALIB_TEMP_MSB < 0 →
      env_combo_probe t
        = ⟨-EIO_code, none,
           [Event.readReg REG_WHO_AM_I (t.readReg REG_WHO_AM_I),
            Event.readReg REG_CALIB_TEMP_MSB
              (t.readReg REG_CALIB_TEMP_MSB)]⟩) ∧
    (t.readReg REG_WHO_AM_I = WHO_AM_I_EXPECTED →
     0 ≤ t.readReg REG_CALIB_TEMP_MSB →
     t.readReg REG_CALIB_TEMP_LSB < 0 →
      env_combo_probe t
        = ⟨-EIO_code, none,
           [Event.readReg REG_WHO_AM_I (t.readReg REG_WHO_AM_I),
            Event.readReg REG_CALIB_TEMP_MSB (t.readReg REG_CALIB_TEMP_MSB),
            Event.readReg REG_CALIB_TEMP_LSB
              (t.readReg REG_CALIB_TEMP_LSB)]⟩) ∧
    (t.readReg REG_WHO_AM_I = WHO_AM_I_EXPECTED →
     0 ≤ t.readReg REG_CALIB_TEMP_MSB →
     0 ≤ t.readReg REG_CALIB_TEMP_LSB →
     t.readReg REG_CALIB_HUM < 0 →
      env_combo_probe t
        = ⟨-EIO_code, none,
           [Event.readReg REG_WHO_AM_I (t.readReg REG_WHO_AM_I),
            Event.readReg REG_CALIB_TEMP_MSB (t.readReg REG_CALIB_TEMP_MSB),
            Event.readReg REG_CALIB_TEMP_LSB (t.readReg REG_CALIB_TEMP_LSB),
            Event.readReg REG_CALIB_HUM (t.readReg REG_CALIB_HUM)]⟩) ∧
    (t.readReg REG_WHO_AM_I = WHO_AM_I_EXPECTED →
     0 ≤ t.readReg REG_CALIB_TEMP_MSB →
     0 ≤ t.readReg REG_CALIB_TEMP_LSB →
     0 ≤ t.readReg REG_CALIB_HUM →
     t.writeReg REG_CFG CFG_DEFAULT < 0 →
      env_combo_probe t
        = ⟨t.writeReg REG_CFG CFG_DEFAULT, none,
           [Event.readReg REG_WHO_AM_I (t.readReg REG_WHO_AM_I),
            Event.readReg REG_CALIB_TEMP_MSB (t.readReg REG_CALIB_TEMP_MSB),
            Event.readReg REG_CALIB_TEMP_LSB (t.readReg REG_CALIB_TEMP_LSB),
            Event.readReg REG_CALIB_HUM (t.readReg REG_CALIB_HUM),
            Event.writeReg REG_CFG CFG_DEFAULT
              (t.writeReg REG_CFG CFG_DEFAULT)]⟩) ∧
    (t.readReg REG_WHO_AM_I = WHO_AM_I_EXPECTED →
     0 ≤ t.readReg REG_CALIB_TEMP_MSB →
     0 ≤ t.readReg REG_CALIB_TEMP_LSB →
     0 ≤ t.readReg REG_CALIB_HUM →
     0 ≤ t.writeReg REG_CFG CFG_DEFAULT →
      env_combo_probe t
        = ⟨0,
           some ⟨(((((t.readReg REG_CALIB_TEMP_MSB).toNat <<<
                 TEMP_SHIFT_BITS) |||
                 (t.readReg REG_CALIB_TEMP_LSB).toNat : Nat) : Int)),
               t.readReg REG_CALIB_HUM⟩,
           [Event.readReg REG_WHO_AM_I (t.readReg REG_WHO_AM_I),
            Event.readReg REG_CALIB_TEMP_MSB (t.readReg REG_CALIB_TEMP_MSB),
            Event.readReg REG_CALIB_TEMP_LSB (t.readReg REG_CALIB_TEMP_LSB),
            Event.readReg REG_CALIB_HUM (t.readReg REG_CALIB_HUM),
            Event.writeReg REG_CFG CFG_DEFAULT
              (t.writeReg REG_CFG CFG_DEFAULT)]⟩) := by
  have hnb : t.readReg REG_WHO_AM_I = WHO_AM_I_EXPECTED →
      ¬(t.readReg REG_WHO_AM_I < 0 ∨
        t.readReg REG_WHO_AM_I ≠ WHO_AM_I_EXPECTED) := by
    intro hid
    simp [hid, WHO_AM_I_EXPECTED]
  refine ⟨?_, ?_, ?_, ?_, ?_, ?_⟩
  · intro hbad
    simp only [env_combo_probe, if_pos hbad]
  · intro hid hm
    simp only [env_combo_probe, if_neg (hnb hid), if_pos hm]
  · intro hid hm hl
    simp only [env_combo_probe, if_neg (hnb hid), if_neg (not_lt.mpr hm),
      if_pos hl]
  · intro hid hm hl hh
    simp only [env_combo_probe, if_neg (hnb hid), if_neg (not_lt.mpr hm),
      if_neg (not_lt.mpr hl), if_pos hh]
  · intro hid hm hl hh hw
    simp only [env_combo_probe, if_neg (hnb hid), if_neg (not_lt.mpr hm),
      if_neg (not_lt.mpr hl), if_neg (not_lt.mpr hh), if_pos hw]
  · intro hid hm hl hh hw
    simp only [env_combo_probe, if_neg (hnb hid), if_neg (not_lt.mpr hm),
      if_neg (not_lt.mpr hl), if_neg (not_lt.mpr hh),
      if_neg (not_lt.mpr hw)]

/-- C6 amended witness: on `sensorOkT` the probe succeeds with
calibration `⟨258, 5⟩` after the five transactions in their specified
order. -/
theorem probe_step_order_and_errors_witness :
    env_combo_probe sensorOkT
      = ⟨0, some ⟨258, 5⟩,
         [Event.readReg REG_WHO_AM_I 0xEB,
          Event.readReg REG_CALIB_TEMP_MSB 1,
          Event.readReg REG_CALIB_TEMP_LSB 2,
          Event.readReg REG_CALIB_HUM 5,
          Event.writeReg REG_CFG CFG_DEFAULT 0]⟩ := by
  have h := (probe_step_order_and_errors sensorOkT).2.2.2.2.2 (by decide)
    (by decide) (by decide) (by decide) (by decide)
  rw [h]
  decide
